import Mathlib

/-!
Shallow embedding of the `adi-tasks-plugin` crate (`src/lib.rs`): the MCP
tool/resource glue around the external `adi_tasks_core::TaskManager`.
The glue is embedded faithfully; the external core crate is not part of this
repository, so its data types are modelled from the spec and its method
results are abstracted as oracles (the glue treats every core call as an
opaque fallible invocation and only inspects the returned values).
-/

namespace AdiTasks

/-- Modelled from the spec (§4.3): `adi_tasks_core::TaskStatus`, the closed
five-variant status enumeration; the core crate defining it is not in this
repository. -/
inductive TaskStatus
  | Todo
  | InProgress
  | Done
  | Blocked
  | Cancelled
deriving DecidableEq, Repr

/-- Embedding of Rust's `format!("{:?}", t.status).to_lowercase()` as used in
the `tasks_list` filter (lib.rs line 256): the `Debug` name of the variant,
lowercased. Note `InProgress` lowercases to `"inprogress"`, not
`"in_progress"`. -/
def TaskStatus.debugLowercase : TaskStatus → String
  | .Todo => "todo"
  | .InProgress => "inprogress"
  | .Done => "done"
  | .Blocked => "blocked"
  | .Cancelled => "cancelled"

/-- `adi_tasks_core::TaskId(i64)` — a newtype over a signed integer
(lib.rs constructs it as `TaskId(id)` from an `i64`). -/
structure TaskId where
  val : Int
deriving DecidableEq, Repr

/-- Modelled from the spec (§3): the `Task` record of the external core crate.
The glue only reads `.status` and serializes whole records; all §3 attributes
are carried. -/
structure Task where
  id : Int
  title : String
  description : Option String
  symbol_id : Option String
  status : TaskStatus
  depends_on : List Int
  created_at : Int
  updated_at : Int
deriving DecidableEq, Repr

/-- `adi_tasks_core::CreateTask` exactly as constructed in lib.rs lines
273-278: `title`, optional `description`, `symbol_id`, `depends_on`. -/
structure CreateTask where
  title : String
  description : Option String
  symbol_id : Option String
  depends_on : List Int
deriving DecidableEq, Repr

/-- Minimal model of `serde_json::Value` covering what the glue inspects. -/
inductive Json
  | null
  | bool (b : Bool)
  | num (n : Int)
  | str (s : String)
  | arr (xs : List Json)
  | obj (fields : List (String × Json))
deriving Repr

/-- `Value::get(key)` — `Some` on an object holding the key, `None`
otherwise. -/
def Json.get? : Json → String → Option Json
  | .obj fields, key => (fields.find? (fun f => f.1 == key)).map (·.2)
  | _, _ => none

/-- `Value::as_str` — `Some` exactly on strings. -/
def Json.asStr : Json → Option String
  | .str s => some s
  | _ => none

/-- `Value::as_i64` — `Some` exactly on integer numbers. -/
def Json.asI64 : Json → Option Int
  | .num n => some n
  | _ => none

/-- `lib_plugin_abi::ServiceError` as used by the glue: constructed via
`ServiceError::invocation_error(msg)` or `ServiceError::method_not_found`. -/
inductive ServiceError
  | invocationError (msg : String)
  | methodNotFound (method : String)
deriving DecidableEq, Repr

/-- `lib_plugin_abi::PluginError::new(code, msg)`. -/
structure PluginError where
  code : Int
  msg : String
deriving DecidableEq, Repr

/-- One invocation of an `adi_tasks_core::TaskManager` method, recorded so
theorems can speak about which core calls the glue attempts. -/
inductive MgrCall
  | list
  | createTask (c : CreateTask)
  | getTask (id : Int)
  | updateStatus (id : Int) (s : TaskStatus)
  | deleteTask (id : Int)
  | getReady
deriving DecidableEq, Repr

/-- Modelled from the spec (§4.5): the external `adi_tasks_core::TaskManager`.
Its implementation is not in this repository; the glue only observes each
method's result, so the manager is abstracted as a record of result oracles
(error payloads are the `e.to_string()` renderings the glue consumes). -/
structure TaskManager where
  listR : Except String (List Task)
  createR : CreateTask → Except String TaskId
  getR : Int → Except String Task
  updateR : Int → TaskStatus → Except String Unit
  deleteR : Int → Except String Unit
  readyR : Except String (List Task)

/-- The success payload of a tool call, before the final (injective)
`serde_json::to_string` plumbing: either a confirmation text built by
`tool_result(&format!(...))`, or the pretty-printed task data passed to
`tool_result(&serde_json::to_string_pretty(..))`. -/
inductive ToolOut
  | text (s : String)
  | tasksJson (ts : List Task)
  | taskJson (t : Task)
deriving DecidableEq, Repr

/-- The inline `match status_str` of lib.rs lines 310-317 (`tasks_update`):
the exact five-string parse, anything else rejected. -/
def statusFromStr : String → Option TaskStatus
  | "todo" => some .Todo
  | "in_progress" => some .InProgress
  | "done" => some .Done
  | "blocked" => some .Blocked
  | "cancelled" => some .Cancelled
  | _ => none

/-- The global `TASKS: OnceCell<Option<TaskManager>>` read
`TASKS.get().and_then(|t| t.as_ref())`: outer `none` = cell never set, inner
`none` = set but the initial open failed. -/
abbrev TasksCell := Option (Option TaskManager)

/-- Embedding of `call_tool` (lib.rs lines 240-345). Returns the result
together with the list of core-manager calls the glue performed. -/
def call_tool (cell : TasksCell) (tool_name : String) (args : Json) :
    Except ServiceError ToolOut × List MgrCall :=
  match cell.bind id with
  | none => (.error (.invocationError "Tasks not initialized"), [])
  | some tasks =>
    match tool_name with
    | "tasks_list" =>
      let status_filter := (args.get? "status").bind Json.asStr
      match tasks.listR with
      | .error e => (.error (.invocationError e), [.list])
      | .ok all_tasks =>
        let filtered :=
          match status_filter with
          | some status => all_tasks.filter (fun t => t.status.debugLowercase == status)
          | none => all_tasks
        (.ok (.tasksJson filtered), [.list])
    | "tasks_create" =>
      match (args.get? "title").bind Json.asStr with
      | none => (.error (.invocationError "Missing title"), [])
      | some title =>
        let description := (args.get? "description").bind Json.asStr
        let create : CreateTask :=
          { title := title, description := description,
            symbol_id := none, depends_on := [] }
        match tasks.createR create with
        | .error e => (.error (.invocationError e), [.createTask create])
        | .ok task_id =>
          (.ok (.text ("Created task #" ++ toString task_id.val)), [.createTask create])
    | "tasks_show" =>
      match (args.get? "id").bind Json.asI64 with
      | none => (.error (.invocationError "Missing id"), [])
      | some i =>
        match tasks.getR i with
        | .error e => (.error (.invocationError e), [.getTask i])
        | .ok task => (.ok (.taskJson task), [.getTask i])
    | "tasks_update" =>
      match (args.get? "id").bind Json.asI64 with
      | none => (.error (.invocationError "Missing id"), [])
      | some i =>
        match (args.get? "status").bind Json.asStr with
        | none => (.error (.invocationError "Missing status"), [])
        | some status_str =>
          match statusFromStr status_str with
          | none => (.error (.invocationError "Invalid status"), [])
          | some status =>
            match tasks.updateR i status with
            | .error e => (.error (.invocationError e), [.updateStatus i status])
            | .ok _ =>
              (.ok (.text ("Updated task #" ++ toString i ++ " to " ++ status_str)),
               [.updateStatus i status])
    | "tasks_delete" =>
      match (args.get? "id").bind Json.asI64 with
      | none => (.error (.invocationError "Missing id"), [])
      | some i =>
        match tasks.deleteR i with
        | .error e => (.error (.invocationError e), [.deleteTask i])
        | .ok _ => (.ok (.text ("Deleted task #" ++ toString i)), [.deleteTask i])
    | _ => (.error (.invocationError ("Unknown tool: " ++ tool_name)), [])

/-- The `json!` object built by `read_resource` for a known URI, before the
final `serde_json::to_string`: the `text` field carries the pretty-printed
task sequence, kept here in structured form. -/
structure ResourceContent where
  uri : String
  mimeType : String
  tasks : List Task
deriving DecidableEq, Repr

/-- Embedding of `read_resource` (lib.rs lines 415-451), with the list of
core-manager calls performed. -/
def read_resource (cell : TasksCell) (uri : String) :
    Except ServiceError ResourceContent × List MgrCall :=
  match cell.bind id with
  | none => (.error (.invocationError "Tasks not initialized"), [])
  | some tasks =>
    match uri with
    | "tasks://all" =>
      match tasks.listR with
      | .error e => (.error (.invocationError e), [.list])
      | .ok all_tasks =>
        (.ok { uri := uri, mimeType := "application/json", tasks := all_tasks }, [.list])
    | "tasks://ready" =>
      match tasks.readyR with
      | .error e => (.error (.invocationError e), [.getReady])
      | .ok ready =>
        (.ok { uri := uri, mimeType := "application/json", tasks := ready }, [.getReady])
    | _ => (.error (.invocationError ("Unknown resource: " ++ uri)), [])

/-- The process-wide globals of lib.rs lines 16-17: the `TASKS` once-cell and
the `PROJECT_PATH` once-cell. -/
structure PluginState where
  tasksCell : TasksCell
  projectPath : Option String

/-- Embedding of the global effect of `plugin_init` (lib.rs lines 28-32) on
the two once-cells: `PROJECT_PATH` is set to `"."` and `TASKS` is set to
`TaskManager::open_global().ok()` — `some` manager on success, `none` stored
in the cell on failure. The external `open_global` result is passed as an
oracle. -/
def plugin_init (openGlobal : Except String TaskManager) : PluginState :=
  { tasksCell := some (match openGlobal with | .ok tm => some tm | .error _ => none),
    projectPath := some "." }

/-- Embedding of `handle_message` (lib.rs lines 101-125). The external
`TaskManager::open(&path)` result is passed as an oracle keyed by the path.
The Rust body opens the manager, immediately discards it (`let _ = tm;`) and
leaves both once-cells untouched, so the state is returned unchanged on
every branch. -/
def handle_message (openAt : String → Except String TaskManager)
    (st : PluginState) (msg_type msg_data : String) :
    Except PluginError String × PluginState :=
  match msg_type with
  | "set_project_path" =>
    match openAt msg_data with
    | .ok _tm => (.ok "ok", st)
    | .error e => (.error ⟨1, "Failed to open tasks: " ++ e⟩, st)
  | _ => (.error ⟨-1, "Unknown message type: " ++ msg_type⟩, st)

/-- The `json!` array literal of `list_tools_json` (lib.rs lines 175-238),
embedded structurally (the final `serde_json::to_string` is injective
plumbing). The function reads no state in the source; it is a constant. -/
def list_tools_json : Json :=
  .arr
    [ .obj
        [ ("name", .str "tasks_list"),
          ("description", .str "List all tasks with optional status filter"),
          ("inputSchema", .obj
            [ ("type", .str "object"),
              ("properties", .obj
                [ ("status", .obj
                    [ ("type", .str "string"),
                      ("enum", .arr
                        [ .str "todo", .str "in_progress", .str "done",
                          .str "blocked", .str "cancelled" ]) ]) ]) ]) ],
      .obj
        [ ("name", .str "tasks_create"),
          ("description", .str "Create a new task"),
          ("inputSchema", .obj
            [ ("type", .str "object"),
              ("properties", .obj
                [ ("title", .obj [("type", .str "string")]),
                  ("description", .obj [("type", .str "string")]) ]),
              ("required", .arr [.str "title"]) ]) ],
      .obj
        [ ("name", .str "tasks_show"),
          ("description", .str "Show task details"),
          ("inputSchema", .obj
            [ ("type", .str "object"),
              ("properties", .obj [("id", .obj [("type", .str "integer")])]),
              ("required", .arr [.str "id"]) ]) ],
      .obj
        [ ("name", .str "tasks_update"),
          ("description", .str "Update task status"),
          ("inputSchema", .obj
            [ ("type", .str "object"),
              ("properties", .obj
                [ ("id", .obj [("type", .str "integer")]),
                  ("status", .obj [("type", .str "string")]) ]),
              ("required", .arr [.str "id", .str "status"]) ]) ],
      .obj
        [ ("name", .str "tasks_delete"),
          ("description", .str "Delete a task"),
          ("inputSchema", .obj
            [ ("type", .str "object"),
              ("properties", .obj [("id", .obj [("type", .str "integer")])]),
              ("required", .arr [.str "id"]) ]) ] ]

/-- The `json!` array literal of `list_resources_json` (lib.rs lines
397-413), embedded structurally. The function reads no state in the source;
it is a constant. -/
def list_resources_json : Json :=
  .arr
    [ .obj
        [ ("uri", .str "tasks://all"),
          ("name", .str "All Tasks"),
          ("description", .str "List of all tasks"),
          ("mimeType", .str "application/json") ],
      .obj
        [ ("uri", .str "tasks://ready"),
          ("name", .str "Ready Tasks"),
          ("description", .str "Tasks ready to work on"),
          ("mimeType", .str "application/json") ] ]

/-- The string stored under `field` in each element of a `Json` array of
objects (used to read the declared tool names and resource URIs). -/
def Json.strField (field : String) : Json → List String
  | .arr xs => xs.filterMap (fun j => (j.get? field).bind Json.asStr)
  | _ => []

/-- Error taxonomy of the external core (spec §7); needed to state claims
about core operations whose implementation is not in this repository. -/
inductive CoreError
  | ValidationError
  | NotFound
  | UnknownDependency
  | CyclicDependency
  | InvalidTransition
  | HasDependents
  | IoFailure
deriving DecidableEq, Repr

/-- Whether a task with this id exists in the store (spec §4.2). -/
def existsId (store : List Task) (i : Int) : Bool :=
  store.any (fun t => t.id == i)

/-- The `depends_on` edges of the task with id `i` in the store. -/
def depsOf (store : List Task) (i : Int) : List Int :=
  match store.find? (fun t => t.id == i) with
  | some t => t.depends_on
  | none => []

/-- Modelled from the spec (§4.2, §9): reachability search along
`depends_on` edges from `src` toward `dst`, with fuel bounding the depth;
used by cycle detection. The core crate implementing it is not in this
repository. -/
def reachable (store : List Task) : Nat → Int → Int → Bool
  | 0, src, dst => src == dst
  | fuel + 1, src, dst =>
    src == dst || (depsOf store src).any (fun d => reachable store fuel d dst)

/-- Modelled from the spec (§4.2): `validate_new_edges(task_id,
proposed_depends_on)` — `UnknownDependency` if a proposed target does not
exist, `CyclicDependency` if the target set reaches back to `task_id`. The
core crate implementing it is not in this repository. -/
def validate_new_edges (store : List Task) (task_id : Int)
    (proposed : List Int) : Except CoreError Unit :=
  if proposed.any (fun d => !existsId store d) then
    .error .UnknownDependency
  else if proposed.any (fun d => reachable store store.length d task_id) then
    .error .CyclicDependency
  else
    .ok ()

/-- Modelled from the spec (§4.5): the validation phase of
`create_task(CreateTask)` — non-empty title, then dependency-edge validation
via §4.2 for the freshly assigned id. The core crate implementing it is not
in this repository; only the validation outcome matters for the claims. -/
def create_task_validation (store : List Task) (fresh_id : Int)
    (c : CreateTask) : Except CoreError Unit :=
  if c.title = "" then
    .error .ValidationError
  else
    validate_new_edges store fresh_id c.depends_on

/-- A sample task with `InProgress` status, for concrete evaluations. -/
def sampleInProgressTask : Task :=
  { id := 1, title := "A", description := none, symbol_id := none,
    status := .InProgress, depends_on := [], created_at := 0, updated_at := 0 }

/-- A sample manager oracle whose every method succeeds. -/
def sampleOkTm : TaskManager :=
  { listR := .ok [sampleInProgressTask],
    createR := fun _ => .ok ⟨7⟩,
    getR := fun _ => .ok sampleInProgressTask,
    updateR := fun _ _ => .ok (),
    deleteR := fun _ => .ok (),
    readyR := .ok [] }

/-- A sample manager oracle whose every method fails with a distinct
message. -/
def sampleErrTm : TaskManager :=
  { listR := .error "list failed",
    createR := fun _ => .error "create failed",
    getR := fun _ => .error "get failed",
    updateR := fun _ _ => .error "update failed",
    deleteR := fun _ => .error "delete failed",
    readyR := .error "ready failed" }

/-- Helper: a string outside the five status names parses to `none`. -/
theorem statusFromStr_eq_none (s : String)
    (h : s ∉ ["todo", "in_progress", "done", "blocked", "cancelled"]) :
    statusFromStr s = none := by
  unfold statusFromStr
  split <;> simp_all

/-- Claim C1 (code-bug evidence): the store holds exactly one task, its
status is `InProgress`, yet the external list operation with the documented
filter string `in_progress` returns the empty sequence (the code compares
against the lowercased Debug name `inprogress`); the update parser of the
same file accepts `in_progress`, exposing the internal inconsistency; and an
arbitrary unknown filter string is accepted with an empty result instead of
a validation error. -/
theorem C1_list_filter_in_progress_bug :
    sampleOkTm.listR = .ok [sampleInProgressTask] ∧
    sampleInProgressTask.status = .InProgress ∧
    call_tool (some (some sampleOkTm)) "tasks_list"
      (Json.obj [("status", Json.str "in_progress")]) =
      (.ok (.tasksJson []), [.list]) ∧
    statusFromStr "in_progress" = some .InProgress ∧
    TaskStatus.InProgress.debugLowercase = "inprogress" ∧
    call_tool (some (some sampleOkTm)) "tasks_list"
      (Json.obj [("status", Json.str "not_a_status")]) =
      (.ok (.tasksJson []), [.list]) :=
  ⟨rfl, rfl, rfl, rfl, rfl, rfl⟩

/-- Claim C2: the update operation parses the status argument by the exact
five-name mapping, and for every string outside the five names it returns a
validation error with no core-manager call attempted (so `update_status` is
never invoked). -/
theorem C2_update_status_exact_parse :
    (statusFromStr "todo" = some .Todo ∧
     statusFromStr "in_progress" = some .InProgress ∧
     statusFromStr "done" = some .Done ∧
     statusFromStr "blocked" = some .Blocked ∧
     statusFromStr "cancelled" = some .Cancelled) ∧
    ∀ (tm : TaskManager) (args : Json) (i : Int) (s : String),
      (args.get? "id").bind Json.asI64 = some i →
      (args.get? "status").bind Json.asStr = some s →
      s ∉ ["todo", "in_progress", "done", "blocked", "cancelled"] →
      call_tool (some (some tm)) "tasks_update" args =
        (.error (.invocationError "Invalid status"), []) := by
  refine ⟨⟨rfl, rfl, rfl, rfl, rfl⟩, ?_⟩
  intro tm args i s hid hst hmem
  simp [call_tool, hid, hst, statusFromStr_eq_none s hmem]

/-- Claim C2 witness: the concrete string `Done` (wrong case) is rejected
with no mutation attempted. -/
theorem C2_update_status_exact_parse_witness :
    ("Done" : String) ∉ ["todo", "in_progress", "done", "blocked", "cancelled"] ∧
    call_tool (some (some sampleOkTm)) "tasks_update"
      (Json.obj [("id", Json.num 1), ("status", Json.str "Done")]) =
      (.error (.invocationError "Invalid status"), []) :=
  ⟨by decide,
   C2_update_status_exact_parse.2 sampleOkTm
     (Json.obj [("id", Json.num 1), ("status", Json.str "Done")]) 1 "Done"
     rfl rfl (by decide)⟩

/-- Claim C3: a successful `set_project_path` message returns `ok` and
leaves the plugin state — the global `TASKS` handle and the project path —
unchanged (and in fact `handle_message` never changes the state on any
branch), so every subsequent tool invocation and resource read still uses
the manager opened at initialization. -/
theorem C3_set_project_path_no_reconfiguration :
    (∀ (openAt : String → Except String TaskManager) (st : PluginState)
       (pathStr : String) (tm : TaskManager),
       openAt pathStr = .ok tm →
       handle_message openAt st "set_project_path" pathStr = (.ok "ok", st)) ∧
    (∀ (openAt : String → Except String TaskManager) (st : PluginState)
       (msg_type msg_data : String),
       (handle_message openAt st msg_type msg_data).2 = st) := by
  constructor
  · intro openAt st pathStr tm h
    simp [handle_message, h]
  · intro openAt st msg_type msg_data
    unfold handle_message
    split <;> (try split) <;> rfl

/-- Claim C3 witness: with an open oracle that succeeds, the concrete
message returns `ok` and the concrete state is unchanged. -/
theorem C3_set_project_path_no_reconfiguration_witness :
    (fun _ : String => Except.ok (ε := String) sampleOkTm) "/p" = .ok sampleOkTm ∧
    handle_message (fun _ => .ok sampleOkTm)
      ⟨some (some sampleOkTm), some "."⟩ "set_project_path" "/p" =
      (.ok "ok", ⟨some (some sampleOkTm), some "."⟩) :=
  ⟨rfl,
   C3_set_project_path_no_reconfiguration.1 (fun _ => .ok sampleOkTm)
     ⟨some (some sampleOkTm), some "."⟩ "/p" sampleOkTm rfl⟩

/-- Claim C4: with an initialized manager, `read_resource` succeeds for
exactly the URIs `tasks://all` (the full collection from `list`) and
`tasks://ready` (the ready collection from `get_ready`); every other URI is
an error with no core-manager call performed. -/
theorem C4_read_resource_exactly_two_uris :
    ∀ (tm : TaskManager),
      (∀ ts, tm.listR = .ok ts →
        read_resource (some (some tm)) "tasks://all" =
          (.ok ⟨"tasks://all", "application/json", ts⟩, [.list])) ∧
      (∀ rs, tm.readyR = .ok rs →
        read_resource (some (some tm)) "tasks://ready" =
          (.ok ⟨"tasks://ready", "application/json", rs⟩, [.getReady])) ∧
      (∀ uri, uri ≠ "tasks://all" → uri ≠ "tasks://ready" →
        read_resource (some (some tm)) uri =
          (.error (.invocationError ("Unknown resource: " ++ uri)), [])) := by
  intro tm
  refine ⟨?_, ?_, ?_⟩
  · intro ts h; simp [read_resource, h]
  · intro rs h; simp [read_resource, h]
  · intro uri h1 h2
    unfold read_resource
    simp only [Option.bind]
    split <;> simp_all

/-- Claim C4 witness: concrete reads of both URIs and of an unknown URI. -/
theorem C4_read_resource_exactly_two_uris_witness :
    read_resource (some (some sampleOkTm)) "tasks://all" =
      (.ok ⟨"tasks://all", "application/json", [sampleInProgressTask]⟩, [.list]) ∧
    read_resource (some (some sampleOkTm)) "tasks://ready" =
      (.ok ⟨"tasks://ready", "application/json", []⟩, [.getReady]) ∧
    read_resource (some (some sampleOkTm)) "tasks://other" =
      (.error (.invocationError "Unknown resource: tasks://other"), []) :=
  ⟨(C4_read_resource_exactly_two_uris sampleOkTm).1 [sampleInProgressTask] rfl,
   (C4_read_resource_exactly_two_uris sampleOkTm).2.1 [] rfl,
   (C4_read_resource_exactly_two_uris sampleOkTm).2.2 "tasks://other"
     (by decide) (by decide)⟩

/-- Claim C5: every invocation missing a required argument — create without
a string title, show or update or delete without an integer id, update
without a status string — fails with the corresponding validation error and
performs no core-manager call. -/
theorem C5_missing_required_args :
    ∀ (tm : TaskManager) (args : Json),
      ((args.get? "title").bind Json.asStr = none →
        call_tool (some (some tm)) "tasks_create" args =
          (.error (.invocationError "Missing title"), [])) ∧
      ((args.get? "id").bind Json.asI64 = none →
        call_tool (some (some tm)) "tasks_show" args =
          (.error (.invocationError "Missing id"), []) ∧
        call_tool (some (some tm)) "tasks_update" args =
          (.error (.invocationError "Missing id"), []) ∧
        call_tool (some (some tm)) "tasks_delete" args =
          (.error (.invocationError "Missing id"), [])) ∧
      (∀ i, (args.get? "id").bind Json.asI64 = some i →
        (args.get? "status").bind Json.asStr = none →
        call_tool (some (some tm)) "tasks_update" args =
          (.error (.invocationError "Missing status"), [])) := by
  intro tm args
  refine ⟨?_, ?_, ?_⟩
  · intro h; simp [call_tool, h]
  · intro h; exact ⟨by simp [call_tool, h], by simp [call_tool, h], by simp [call_tool, h]⟩
  · intro i hid hst; simp [call_tool, hid, hst]

/-- Claim C5 witness: concrete invocations with empty arguments and with an
id but no status. -/
theorem C5_missing_required_args_witness :
    call_tool (some (some sampleOkTm)) "tasks_create" (Json.obj []) =
      (.error (.invocationError "Missing title"), []) ∧
    call_tool (some (some sampleOkTm)) "tasks_show" (Json.obj []) =
      (.error (.invocationError "Missing id"), []) ∧
    call_tool (some (some sampleOkTm)) "tasks_update"
      (Json.obj [("id", Json.num 3)]) =
      (.error (.invocationError "Missing status"), []) :=
  ⟨(C5_missing_required_args sampleOkTm (Json.obj [])).1 rfl,
   ((C5_missing_required_args sampleOkTm (Json.obj [])).2.1 rfl).1,
   (C5_missing_required_args sampleOkTm (Json.obj [("id", Json.num 3)])).2.2 3 rfl rfl⟩

/-- Claim C6: on every successful create, the confirmation text reports the
exact TaskId returned by `create_task`. -/
theorem C6_create_reports_assigned_id :
    ∀ (tm : TaskManager) (args : Json) (title : String) (tid : TaskId),
      (args.get? "title").bind Json.asStr = some title →
      tm.createR
        { title := title,
          description := (args.get? "description").bind Json.asStr,
          symbol_id := none, depends_on := [] } = .ok tid →
      call_tool (some (some tm)) "tasks_create" args =
        (.ok (.text ("Created task #" ++ toString tid.val)),
         [.createTask
            { title := title,
              description := (args.get? "description").bind Json.asStr,
              symbol_id := none, depends_on := [] }]) := by
  intro tm args title tid ht hc
  simp [call_tool, ht, hc]

/-- Claim C6 witness: a concrete create whose oracle assigns id 7 reports
`Created task #7`. -/
theorem C6_create_reports_assigned_id_witness :
    call_tool (some (some sampleOkTm)) "tasks_create"
      (Json.obj [("title", Json.str "T")]) =
      (.ok (.text "Created task #7"),
       [.createTask
          { title := "T", description := none,
            symbol_id := none, depends_on := [] }]) :=
  C6_create_reports_assigned_id sampleOkTm (Json.obj [("title", Json.str "T")])
    "T" ⟨7⟩ rfl rfl

/-- Claim C7: whenever an underlying core-manager method fails, that failure
is returned to the caller as a typed invocation error carrying the rendered
message — for list, create, show, update, delete and the two resource reads;
nothing is swallowed, and the glue holds no mutable state of its own, so the
boundary stays usable afterwards. -/
theorem C7_core_errors_propagated :
    ∀ (tm : TaskManager) (args : Json) (e : String),
      (tm.listR = .error e →
        call_tool (some (some tm)) "tasks_list" args =
          (.error (.invocationError e), [.list]) ∧
        read_resource (some (some tm)) "tasks://all" =
          (.error (.invocationError e), [.list])) ∧
      (∀ title, (args.get? "title").bind Json.asStr = some title →
        tm.createR
          { title := title,
            description := (args.get? "description").bind Json.asStr,
            symbol_id := none, depends_on := [] } = .error e →
        call_tool (some (some tm)) "tasks_create" args =
          (.error (.invocationError e),
           [.createTask
              { title := title,
                description := (args.get? "description").bind Json.asStr,
                symbol_id := none, depends_on := [] }])) ∧
      (∀ i, (args.get? "id").bind Json.asI64 = some i →
        (tm.getR i = .error e →
          call_tool (some (some tm)) "tasks_show" args =
            (.error (.invocationError e), [.getTask i])) ∧
        (tm.deleteR i = .error e →
          call_tool (some (some tm)) "tasks_delete" args =
            (.error (.invocationError e), [.deleteTask i])) ∧
        (∀ s st, (args.get? "status").bind Json.asStr = some s →
          statusFromStr s = some st →
          tm.updateR i st = .error e →
          call_tool (some (some tm)) "tasks_update" args =
            (.error (.invocationError e), [.updateStatus i st]))) ∧
      (tm.readyR = .error e →
        read_resource (some (some tm)) "tasks://ready" =
          (.error (.invocationError e), [.getReady])) := by
  intro tm args e
  refine ⟨?_, ?_, ?_, ?_⟩
  · intro h; exact ⟨by simp [call_tool, h], by simp [read_resource, h]⟩
  · intro title ht hc; simp [call_tool, ht, hc]
  · intro i hid
    refine ⟨?_, ?_, ?_⟩
    · intro h; simp [call_tool, hid, h]
    · intro h; simp [call_tool, hid, h]
    · intro s st hs hst h; simp [call_tool, hid, hs, hst, h]
  · intro h; simp [read_resource, h]

/-- Claim C7 witness: with the all-failing oracle, list and ready failures
surface verbatim as typed invocation errors. -/
theorem C7_core_errors_propagated_witness :
    sampleErrTm.listR = .error "list failed" ∧
    call_tool (some (some sampleErrTm)) "tasks_list" (Json.obj []) =
      (.error (.invocationError "list failed"), [.list]) ∧
    read_resource (some (some sampleErrTm)) "tasks://ready" =
      (.error (.invocationError "ready failed"), [.getReady]) :=
  ⟨rfl,
   ((C7_core_errors_propagated sampleErrTm (Json.obj []) "list failed").1 rfl).1,
   (C7_core_errors_propagated sampleErrTm (Json.obj []) "ready failed").2.2.2 rfl⟩

/-- Claim C8: every create submitted through the boundary carries an empty
`depends_on` and no `symbol_id` — whatever the oracle answers, the single
core call made is `create_task` on that value — and, per the spec-modelled
core validation, a `CreateTask` with empty dependencies can fail with
neither `UnknownDependency` nor `CyclicDependency`. -/
theorem C8_create_empty_deps_never_graph_errors :
    (∀ (tm : TaskManager) (args : Json) (title : String),
      (args.get? "title").bind Json.asStr = some title →
      (call_tool (some (some tm)) "tasks_create" args).2 =
        [.createTask
           { title := title,
             description := (args.get? "description").bind Json.asStr,
             symbol_id := none, depends_on := [] }]) ∧
    (∀ (store : List Task) (fresh_id : Int) (c : CreateTask),
      c.depends_on = [] →
      create_task_validation store fresh_id c ≠ .error .UnknownDependency ∧
      create_task_validation store fresh_id c ≠ .error .CyclicDependency) := by
  constructor
  · intro tm args title ht
    cases hc : tm.createR
        { title := title,
          description := (args.get? "description").bind Json.asStr,
          symbol_id := none, depends_on := [] } <;>
      simp [call_tool, ht, hc]
  · intro store fresh_id c hdeps
    unfold create_task_validation validate_new_edges
    rw [hdeps]
    by_cases h : c.title = "" <;> simp [h]

/-- Claim C8 witness: the concrete create call passes empty dependencies,
and the spec-modelled validation on a concrete empty-dependency input is
neither graph error. -/
theorem C8_create_empty_deps_never_graph_errors_witness :
    (call_tool (some (some sampleOkTm)) "tasks_create"
      (Json.obj [("title", Json.str "T")])).2 =
      [.createTask
         { title := "T", description := none,
           symbol_id := none, depends_on := [] }] ∧
    create_task_validation [] 1 ⟨"T", none, none, []⟩ ≠
      .error .UnknownDependency ∧
    create_task_validation [] 1 ⟨"T", none, none, []⟩ ≠
      .error .CyclicDependency :=
  ⟨C8_create_empty_deps_never_graph_errors.1 sampleOkTm
     (Json.obj [("title", Json.str "T")]) "T" rfl,
   (C8_create_empty_deps_never_graph_errors.2 [] 1 ⟨"T", none, none, []⟩ rfl).1,
   (C8_create_empty_deps_never_graph_errors.2 [] 1 ⟨"T", none, none, []⟩ rfl).2⟩

/-- Claim C9: when the initial open fails, `plugin_init` stores `none` in
the `TASKS` cell, and in that state every tool name with any arguments and
every resource URI yields the `Tasks not initialized` error with no core
call and no panic. -/
theorem C9_uninitialized_always_errors :
    (∀ e, (plugin_init (.error e)).tasksCell = some none) ∧
    (∀ (tool_name : String) (args : Json),
      call_tool (some none) tool_name args =
        (.error (.invocationError "Tasks not initialized"), [])) ∧
    (∀ uri, read_resource (some none) uri =
        (.error (.invocationError "Tasks not initialized"), [])) :=
  ⟨fun _ => rfl, fun _ _ => rfl, fun _ => rfl⟩

/-- Claim C10: the tool and resource listings are constants of the program
(the source functions read no state), declaring exactly the five tool names
and exactly the two resource URIs, in order. -/
theorem C10_listings_constant_and_exact :
    list_tools_json.strField "name" =
      ["tasks_list", "tasks_create", "tasks_show", "tasks_update", "tasks_delete"] ∧
    list_resources_json.strField "uri" = ["tasks://all", "tasks://ready"] :=
  ⟨rfl, rfl⟩

end AdiTasks
